import Mathlib

/-
Verification of the crux-trade-api payment-quote, bet-lifecycle and
wallet-session core, as a shallow embedding in Lean 4.

The definitions below are translated from the TypeScript sources:
  src/payments/payments.service.ts  (PaymentsService)
  src/bets/bets.service.ts          (BetsService)
  wallet service                    (WalletService, WalletAuthGuard)
The persistent store is modelled as a list of records; each service call
is a function from the current store to a result together with the next
store, so that error paths which still write (for example the lazy
expiry transition) are represented faithfully.

Money amounts and odds are rationals; timestamps are integers counting
milliseconds, matching the JavaScript Date/number representation.
-/

namespace CruxTrade

/-! ## JavaScript numeric rounding helpers

Number.prototype.toFixed(f) picks the integer n minimising the distance
of n / 10 ^ f to the value, taking the larger n on a tie, which is
floor of the scaled value plus one half; Math.round is the same at
scale 1. -/

def jsRound (q : ℚ) : ℤ := (q + 1 / 2).floor

theorem jsRound_eq_floor (q : ℚ) : jsRound q = ⌊q + 1 / 2⌋ := by
  rw [jsRound, Rat.floor_def', Rat.floor_def]

def toFixed6 (q : ℚ) : ℚ := ((jsRound (q * 1000000) : ℚ)) / 1000000

def roundTo2 (q : ℚ) : ℚ := ((jsRound (q * 100) : ℚ)) / 100

theorem jsRound_eq (q : ℚ) (n : ℤ) (h1 : (n : ℚ) ≤ q + 1 / 2)
    (h2 : q + 1 / 2 < n + 1) : jsRound q = n := by
  rw [jsRound_eq_floor, Int.floor_eq_iff]
  exact ⟨h1, h2⟩

theorem toFixed6_eq (q : ℚ) (n : ℤ) (h1 : (n : ℚ) ≤ q * 1000000 + 1 / 2)
    (h2 : q * 1000000 + 1 / 2 < n + 1) : toFixed6 q = (n : ℚ) / 1000000 := by
  rw [toFixed6, jsRound_eq (q * 1000000) n h1 h2]

theorem roundTo2_eq (q : ℚ) (n : ℤ) (h1 : (n : ℚ) ≤ q * 100 + 1 / 2)
    (h2 : q * 100 + 1 / 2 < n + 1) : roundTo2 q = (n : ℚ) / 100 := by
  rw [roundTo2, jsRound_eq (q * 100) n h1 h2]

/-! ## Payment quote engine (PaymentsService) -/

inductive QuoteStatus
  | quoted
  | paid
  | expired
  deriving DecidableEq

structure QuoteRecord where
  quoteId : String
  userId : Option String
  marketId : String
  direction : String
  orderType : String
  limitPrice : Option ℚ
  shares : ℚ
  token : String
  amount : ℚ
  spender : String
  deadline : Int
  txChainId : Int
  txFrom : String
  txTo : String
  txData : String
  txValue : String
  status : QuoteStatus
  txHash : Option String
  createdAt : Int
  deriving DecidableEq

inductive PaymentError
  | quoteNotFound
  | alreadyPaidDifferentHash
  | quoteExpired
  | invalidTxHashFormat
  | txHashAlreadyUsed
  | missingTxHash
  deriving DecidableEq

/-- Conflict errors in the sense of the error taxonomy (HTTP 409 family). -/
def PaymentError.isConflict : PaymentError → Bool
  | PaymentError.alreadyPaidDifferentHash => true
  | PaymentError.txHashAlreadyUsed => true
  | _ => false

structure PaidPayment where
  quoteId : String
  token : String
  amount : ℚ
  spender : String
  deadline : Int
  txHash : String
  deriving DecidableEq

structure PaymentsConfig where
  quoteTtlSeconds : Int
  spender : String
  chainId : Int
  txFrom : String
  txTo : String
  txData : String
  txValue : String
  defaultPrice : ℚ

structure QuoteRequest where
  userId : Option String
  marketId : String
  direction : String
  orderType : String
  limitPrice : Option ℚ
  shares : ℚ
  token : String

/-- Select by quote_id (quote_id is UNIQUE in payments_quotes). -/
def findQuote (store : List QuoteRecord) (quoteId : String) : Option QuoteRecord :=
  store.find? (fun r => r.quoteId == quoteId)

/-- update status to expired where quote_id matches. -/
def setExpired (store : List QuoteRecord) (quoteId : String) : List QuoteRecord :=
  store.map (fun r =>
    if r.quoteId == quoteId then { r with status := QuoteStatus.expired } else r)

/-- update status to paid and set tx_hash where quote_id matches. -/
def setPaid (store : List QuoteRecord) (quoteId txHash : String) : List QuoteRecord :=
  store.map (fun r =>
    if r.quoteId == quoteId then
      { r with status := QuoteStatus.paid, txHash := some txHash }
    else r)

def isHexDigit (c : Char) : Bool :=
  c.isDigit || (('a' ≤ c) && (c ≤ 'f')) || (('A' ≤ c) && (c ≤ 'F'))

/-- Regex 0x followed by 64 hexadecimal characters, anchored. -/
def isTxHashValid (txHash : String) : Bool :=
  match txHash.data with
  | '0' :: 'x' :: rest => rest.length == 64 && rest.all isHexDigit
  | _ => false

def isExpired (now : Int) (q : QuoteRecord) : Bool := decide (q.deadline < now)

def buildPaidResponse (q : QuoteRecord) : Except PaymentError PaidPayment :=
  match q.txHash with
  | none => Except.error PaymentError.missingTxHash
  | some h =>
      Except.ok
        { quoteId := q.quoteId, token := q.token, amount := q.amount,
          spender := q.spender, deadline := q.deadline, txHash := h }

def calculateAmount (defaultPrice : ℚ) (limitPrice : Option ℚ) (shares : ℚ) : ℚ :=
  let price := limitPrice.getD defaultPrice
  max 0 (toFixed6 (price * shares))

def createQuote (cfg : PaymentsConfig) (now : Int) (newQuoteId : String)
    (input : QuoteRequest) (store : List QuoteRecord) :
    QuoteRecord × List QuoteRecord :=
  let deadline := now + cfg.quoteTtlSeconds * 1000
  let amount := calculateAmount cfg.defaultPrice input.limitPrice input.shares
  let record : QuoteRecord :=
    { quoteId := newQuoteId, userId := input.userId, marketId := input.marketId,
      direction := input.direction, orderType := input.orderType,
      limitPrice := input.limitPrice, shares := input.shares,
      token := input.token, amount := amount, spender := cfg.spender,
      deadline := deadline, txChainId := cfg.chainId, txFrom := cfg.txFrom,
      txTo := cfg.txTo, txData := cfg.txData, txValue := cfg.txValue,
      status := QuoteStatus.quoted, txHash := none, createdAt := now }
  (record, store ++ [record])

def confirmPayment (now : Int) (store : List QuoteRecord)
    (quoteId txHash : String) :
    Except PaymentError PaidPayment × List QuoteRecord :=
  match findQuote store quoteId with
  | none => (Except.error PaymentError.quoteNotFound, store)
  | some q =>
      if q.status = QuoteStatus.paid then
        if q.txHash ≠ some txHash then
          (Except.error PaymentError.alreadyPaidDifferentHash, store)
        else
          (buildPaidResponse q, store)
      else if isExpired now q then
        (Except.error PaymentError.quoteExpired, setExpired store quoteId)
      else if !isTxHashValid txHash then
        (Except.error PaymentError.invalidTxHashFormat, store)
      else if store.any (fun r => r.txHash == some txHash && r.quoteId != quoteId) then
        (Except.error PaymentError.txHashAlreadyUsed, store)
      else
        let store2 := setPaid store quoteId txHash
        match findQuote store2 quoteId with
        | none => (Except.error PaymentError.quoteNotFound, store2)
        | some q2 => (buildPaidResponse q2, store2)

/-! ## Generic store lemma: a keyed update commutes with a keyed lookup -/

theorem find?_map_congr {α : Type} (p : α → Bool) (g : α → α)
    (hg : ∀ x, p (g x) = p x) :
    ∀ l : List α, (l.map g).find? p = (l.find? p).map g := by
  intro l
  induction l with
  | nil => rfl
  | cons x t ih =>
      cases hx : p x with
      | true => simp [List.find?, hg, hx]
      | false => simp [List.find?, hg, hx, ih]

theorem findQuote_setExpired (store : List QuoteRecord) (qid : String) :
    findQuote (setExpired store qid) qid
      = (findQuote store qid).map (fun r => { r with status := QuoteStatus.expired }) := by
  induction store with
  | nil => rfl
  | cons r t ih =>
      simp only [findQuote, setExpired, List.map_cons, List.find?] at ih ⊢
      cases hx : r.quoteId == qid with
      | true => simp [hx]
      | false => simpa [hx] using ih

/-! ## Sample data used in witnesses and counterexamples -/

def sampleConfig : PaymentsConfig :=
  { quoteTtlSeconds := 600, spender := "0xSpender", chainId := 1,
    txFrom := "0xUser", txTo := "0xSpender", txData := "0x", txValue := "0",
    defaultPrice := 13 / 25 }

def txHashA : String :=
  "0xaaaaaaaaaaaaaaaaaaaaaaaaaaaaaaaaaaaaaaaaaaaaaaaaaaaaaaaaaaaaaaaa"

def txHashB : String :=
  "0xbbbbbbbbbbbbbbbbbbbbbbbbbbbbbbbbbbbbbbbbbbbbbbbbbbbbbbbbbbbbbbbb"

def paidQuoteSample : QuoteRecord :=
  { quoteId := "quote-1", userId := none, marketId := "m1", direction := "Up",
    orderType := "Market", limitPrice := none, shares := 100, token := "USDC",
    amount := 52, spender := "0xSpender", deadline := 1000, txChainId := 1,
    txFrom := "0xUser", txTo := "0xSpender", txData := "0x", txValue := "0",
    status := QuoteStatus.paid, txHash := some txHashA, createdAt := 0 }

def quotedQuoteSample : QuoteRecord :=
  { paidQuoteSample with status := QuoteStatus.quoted, txHash := none }

/-! ## C1 -/

/-- C1: for a quote already paid with stored hash h, confirmPayment with the
same hash returns the same paid result (same quoteId, token, amount, spender,
deadline, txHash) without error or mutation; with a different hash it fails
with the already-paid Conflict and leaves the store unchanged. -/
theorem C1_paid_idempotent_and_conflict (now : Int) (store : List QuoteRecord)
    (qid h : String) (q : QuoteRecord)
    (hfind : findQuote store qid = some q)
    (hpaid : q.status = QuoteStatus.paid)
    (hhash : q.txHash = some h) :
    confirmPayment now store qid h =
        (Except.ok
            { quoteId := q.quoteId, token := q.token, amount := q.amount,
              spender := q.spender, deadline := q.deadline, txHash := h },
          store)
      ∧ ∀ h2, h2 ≠ h →
          confirmPayment now store qid h2 =
            (Except.error PaymentError.alreadyPaidDifferentHash, store) := by
  constructor
  · simp [confirmPayment, hfind, hpaid, buildPaidResponse, hhash]
  · intro h2 hne
    have : q.txHash ≠ some h2 := by
      rw [hhash]
      intro hcontra
      exact hne (Option.some.inj hcontra).symm
    simp [confirmPayment, hfind, hpaid, this]

theorem C1_witness :
    findQuote [paidQuoteSample] "quote-1" = some paidQuoteSample
      ∧ paidQuoteSample.status = QuoteStatus.paid
      ∧ paidQuoteSample.txHash = some txHashA
      ∧ confirmPayment 0 [paidQuoteSample] "quote-1" txHashA =
          (Except.ok
              { quoteId := "quote-1", token := "USDC", amount := 52,
                spender := "0xSpender", deadline := 1000, txHash := txHashA },
            [paidQuoteSample])
      ∧ confirmPayment 0 [paidQuoteSample] "quote-1" txHashB =
          (Except.error PaymentError.alreadyPaidDifferentHash, [paidQuoteSample]) := by
  refine ⟨rfl, rfl, rfl, ?_, ?_⟩
  · exact (C1_paid_idempotent_and_conflict 0 [paidQuoteSample] "quote-1" txHashA
      paidQuoteSample rfl rfl rfl).1
  · exact (C1_paid_idempotent_and_conflict 0 [paidQuoteSample] "quote-1" txHashA
      paidQuoteSample rfl rfl rfl).2 txHashB (by decide)

/-! ## C2 -/

/-- C2 counterexample: a quote that is already paid and whose deadline has
passed does not fail with Expired; confirmPayment with the stored hash still
returns the paid result, because the already-paid check precedes the expiry
check. -/
theorem C2_counterexample :
    ({ paidQuoteSample with deadline := 0 } : QuoteRecord).deadline < 1
      ∧ (confirmPayment 1 [{ paidQuoteSample with deadline := 0 }] "quote-1" txHashA).1
          = Except.ok
              { quoteId := "quote-1", token := "USDC", amount := 52,
                spender := "0xSpender", deadline := 0, txHash := txHashA }
      ∧ (confirmPayment 1 [{ paidQuoteSample with deadline := 0 }] "quote-1" txHashA).1
          ≠ Except.error PaymentError.quoteExpired := by
  refine ⟨by decide, rfl, ?_⟩
  have hok : (confirmPayment 1 [{ paidQuoteSample with deadline := 0 }] "quote-1" txHashA).1
      = Except.ok
          { quoteId := "quote-1", token := "USDC", amount := 52,
            spender := "0xSpender", deadline := 0, txHash := txHashA } := rfl
  rw [hok]
  intro hcontra
  exact Except.noConfusion hcontra

/-- C2 (amended): for a quote that is not already paid and whose deadline is
earlier than the current time, confirmPayment fails with Expired for every
txHash, the stored status is transitioned to expired, and the quote is never
marked paid (its tx hash is left untouched). -/
theorem C2_expired_always_fails (now : Int) (store : List QuoteRecord)
    (qid : String) (q : QuoteRecord)
    (hfind : findQuote store qid = some q)
    (hnotpaid : q.status ≠ QuoteStatus.paid)
    (hdl : q.deadline < now) :
    ∀ txHash,
      confirmPayment now store qid txHash
          = (Except.error PaymentError.quoteExpired, setExpired store qid)
        ∧ findQuote (confirmPayment now store qid txHash).2 qid
            = some { q with status := QuoteStatus.expired } := by
  intro txHash
  have hstep : confirmPayment now store qid txHash
      = (Except.error PaymentError.quoteExpired, setExpired store qid) := by
    simp [confirmPayment, hfind, hnotpaid, isExpired, hdl]
  refine ⟨hstep, ?_⟩
  rw [hstep]
  simp [findQuote_setExpired, hfind]

theorem C2_witness :
    findQuote [{ quotedQuoteSample with deadline := 0 }] "quote-1"
        = some { quotedQuoteSample with deadline := 0 }
      ∧ ({ quotedQuoteSample with deadline := 0 } : QuoteRecord).status ≠ QuoteStatus.paid
      ∧ ({ quotedQuoteSample with deadline := 0 } : QuoteRecord).deadline < 5
      ∧ confirmPayment 5 [{ quotedQuoteSample with deadline := 0 }] "quote-1" txHashA
          = (Except.error PaymentError.quoteExpired,
              setExpired [{ quotedQuoteSample with deadline := 0 }] "quote-1")
      ∧ findQuote (confirmPayment 5 [{ quotedQuoteSample with deadline := 0 }] "quote-1" txHashA).2 "quote-1"
          = some { quotedQuoteSample with deadline := 0, status := QuoteStatus.expired } := by
  refine ⟨rfl, by decide, by decide, ?_, ?_⟩
  · exact (C2_expired_always_fails 5 [{ quotedQuoteSample with deadline := 0 }] "quote-1"
      { quotedQuoteSample with deadline := 0 } rfl (by decide) (by decide) txHashA).1
  · exact (C2_expired_always_fails 5 [{ quotedQuoteSample with deadline := 0 }] "quote-1"
      { quotedQuoteSample with deadline := 0 } rfl (by decide) (by decide) txHashA).2

/-! ## C5 -/

/-- C5 counterexample: createQuote does not always set amount to the rounded
product; for negative shares the product is clamped to 0, so the amount
differs from round6 of shares times price. -/
theorem C5_counterexample :
    (createQuote sampleConfig 0 "quote-1"
        { userId := none, marketId := "m1", direction := "Up", orderType := "Limit",
          limitPrice := some (13 / 25), shares := -1, token := "USDC" } []).1.amount = 0
      ∧ toFixed6 ((13 / 25 : ℚ) * (-1)) = -(13 / 25)
      ∧ (0 : ℚ) ≠ -(13 / 25) := by
  have hfix : toFixed6 ((13 / 25 : ℚ) * (-1)) = -(13 / 25) := by
    rw [toFixed6_eq ((13 / 25 : ℚ) * (-1)) (-520000) (by norm_num) (by norm_num)]
    norm_num
  refine ⟨?_, hfix, by norm_num⟩
  show max 0 (toFixed6 ((13 / 25 : ℚ) * (-1))) = 0
  rw [hfix, max_eq_left (by norm_num : -(13 / 25 : ℚ) ≤ 0)]

/-- C5 (amended): every quote produced by createQuote has
amount equal to max 0 of shares times (limitPrice if supplied, else the
configured default price) rounded to 6 decimal places, hence amount is
nonnegative; in particular shares 100 at limit price 0.52 yields amount 52. -/
theorem C5_amount_clamped_rounded (cfg : PaymentsConfig) (now : Int)
    (qid : String) (req : QuoteRequest) (store : List QuoteRecord) :
    ((createQuote cfg now qid req store).1.amount
        = max 0 (toFixed6 ((req.limitPrice.getD cfg.defaultPrice) * req.shares)))
      ∧ 0 ≤ (createQuote cfg now qid req store).1.amount
      ∧ (createQuote sampleConfig 0 "quote-1"
          { userId := none, marketId := "m1", direction := "Up", orderType := "Limit",
            limitPrice := some (13 / 25), shares := 100, token := "USDC" } []).1.amount
          = 52 := by
  refine ⟨rfl, le_max_left _ _, ?_⟩
  show max 0 (toFixed6 ((13 / 25 : ℚ) * 100)) = 52
  rw [toFixed6_eq ((13 / 25 : ℚ) * 100) 52000000 (by norm_num) (by norm_num),
    max_eq_right (by norm_num : (0 : ℚ) ≤ (52000000 : ℤ) / 1000000)]
  norm_num

/-! ## C3 -/

/-- A tx hash is attached to at most one quote in the store. -/
def txHashUnique (store : List QuoteRecord) : Prop :=
  ∀ r1 ∈ store, ∀ r2 ∈ store,
    r1.txHash.isSome → r1.txHash = r2.txHash → r1.quoteId = r2.quoteId

def quoteTwoSample : QuoteRecord :=
  { quotedQuoteSample with quoteId := "quote-2" }

/-! ## C4

confirmPayment performs its checks on a snapshot read of the store and then
issues a write; between the read and the write of one request, a concurrent
request may run. The two phases below cut the source at that suspension
point: confirmPaymentRead performs the load and every check, and
confirmPaymentWrite performs the final update, which in the source is keyed
on quote_id only and carries no expected-prior-status condition. -/

inductive ConfirmReadOutcome
  | finished (r : Except PaymentError PaidPayment)
  | proceed

def confirmPaymentRead (now : Int) (store : List QuoteRecord)
    (quoteId txHash : String) : ConfirmReadOutcome × List QuoteRecord :=
  match findQuote store quoteId with
  | none => (ConfirmReadOutcome.finished (Except.error PaymentError.quoteNotFound), store)
  | some q =>
      if q.status = QuoteStatus.paid then
        if q.txHash ≠ some txHash then
          (ConfirmReadOutcome.finished
            (Except.error PaymentError.alreadyPaidDifferentHash), store)
        else
          (ConfirmReadOutcome.finished (buildPaidResponse q), store)
      else if isExpired now q then
        (ConfirmReadOutcome.finished (Except.error PaymentError.quoteExpired),
          setExpired store quoteId)
      else if !isTxHashValid txHash then
        (ConfirmReadOutcome.finished (Except.error PaymentError.invalidTxHashFormat), store)
      else if store.any (fun r => r.txHash == some txHash && r.quoteId != quoteId) then
        (ConfirmReadOutcome.finished (Except.error PaymentError.txHashAlreadyUsed), store)
      else
        (ConfirmReadOutcome.proceed, store)

def confirmPaymentWrite (store : List QuoteRecord) (quoteId txHash : String) :
    Except PaymentError PaidPayment × List QuoteRecord :=
  let store2 := setPaid store quoteId txHash
  match findQuote store2 quoteId with
  | none => (Except.error PaymentError.quoteNotFound, store2)
  | some q2 => (buildPaidResponse q2, store2)

theorem confirmPayment_eq_read_then_write (now : Int) (store : List QuoteRecord)
    (quoteId txHash : String) :
    confirmPayment now store quoteId txHash =
      match confirmPaymentRead now store quoteId txHash with
      | (ConfirmReadOutcome.finished r, s) => (r, s)
      | (ConfirmReadOutcome.proceed, s) => confirmPaymentWrite s quoteId txHash := by
  unfold confirmPayment confirmPaymentRead confirmPaymentWrite
  cases hfind : findQuote store quoteId with
  | none => rfl
  | some q =>
      dsimp only
      split_ifs <;> rfl

/-- C4: the quoted-to-paid transition is not a conditional update keyed on
the prior status; with two concurrent confirmPayment calls on the same fresh
quote carrying two different valid-format hashes, the interleaving
read1-read2-write1-write2 lets both calls pass every check and both return
a successful paid response with their own hash, the second write silently
overwriting the first hash — the claimed exactly-one-succeeds outcome fails. -/
theorem C4_concurrent_confirm_both_succeed :
    (confirmPaymentRead 0 [quotedQuoteSample] "quote-1" txHashA).1
        = ConfirmReadOutcome.proceed
      ∧ (confirmPaymentRead 0 [quotedQuoteSample] "quote-1" txHashB).1
          = ConfirmReadOutcome.proceed
      ∧ (confirmPaymentWrite [quotedQuoteSample] "quote-1" txHashA).1
          = Except.ok
              { quoteId := "quote-1", token := "USDC", amount := 52,
                spender := "0xSpender", deadline := 1000, txHash := txHashA }
      ∧ (confirmPaymentWrite
            (confirmPaymentWrite [quotedQuoteSample] "quote-1" txHashA).2
            "quote-1" txHashB).1
          = Except.ok
              { quoteId := "quote-1", token := "USDC", amount := 52,
                spender := "0xSpender", deadline := 1000, txHash := txHashB }
      ∧ findQuote
            (confirmPaymentWrite
              (confirmPaymentWrite [quotedQuoteSample] "quote-1" txHashA).2
              "quote-1" txHashB).2 "quote-1"
          = some { quotedQuoteSample with status := QuoteStatus.paid, txHash := some txHashB }
      ∧ txHashA ≠ txHashB := by
  exact ⟨rfl, rfl, rfl, rfl, rfl, by decide⟩

/-- C3: tx-hash uniqueness is guarded only by a pre-check SELECT before an
unconditional UPDATE, and payments_quotes.sql has no unique constraint on
tx_hash; with two fresh quotes and one valid hash, the interleaving
read1-read2-write1-write2 lets both confirmPayment calls pass the uniqueness
pre-check and both succeed, leaving the same tx hash attached to two
different quotes — the claimed at-most-one-quote-per-hash property fails on
a reachable store state. -/
theorem C3_same_hash_credited_to_two_quotes :
    (confirmPaymentRead 0 [quotedQuoteSample, quoteTwoSample] "quote-1" txHashA).1
        = ConfirmReadOutcome.proceed
      ∧ (confirmPaymentRead 0 [quotedQuoteSample, quoteTwoSample] "quote-2" txHashA).1
          = ConfirmReadOutcome.proceed
      ∧ (confirmPaymentWrite [quotedQuoteSample, quoteTwoSample] "quote-1" txHashA).1
          = Except.ok
              { quoteId := "quote-1", token := "USDC", amount := 52,
                spender := "0xSpender", deadline := 1000, txHash := txHashA }
      ∧ (confirmPaymentWrite
            (confirmPaymentWrite [quotedQuoteSample, quoteTwoSample] "quote-1" txHashA).2
            "quote-2" txHashA).1
          = Except.ok
              { quoteId := "quote-2", token := "USDC", amount := 52,
                spender := "0xSpender", deadline := 1000, txHash := txHashA }
      ∧ (confirmPaymentWrite
            (confirmPaymentWrite [quotedQuoteSample, quoteTwoSample] "quote-1" txHashA).2
            "quote-2" txHashA).2
          = [{ quotedQuoteSample with status := QuoteStatus.paid, txHash := some txHashA },
              { quoteTwoSample with status := QuoteStatus.paid, txHash := some txHashA }]
      ∧ ¬ txHashUnique
          [{ quotedQuoteSample with status := QuoteStatus.paid, txHash := some txHashA },
            { quoteTwoSample with status := QuoteStatus.paid, txHash := some txHashA }] := by
  refine ⟨rfl, rfl, rfl, rfl, rfl, ?_⟩
  intro huniq
  have hcontra := huniq
    { quotedQuoteSample with status := QuoteStatus.paid, txHash := some txHashA }
    (by simp)
    { quoteTwoSample with status := QuoteStatus.paid, txHash := some txHashA }
    (by simp)
    rfl rfl
  exact absurd hcontra (by decide)

/-! ## Bet lifecycle manager (BetsService) -/

/-- JavaScript toLowerCase, per character (ASCII), used where the source
calls walletAddress.toLowerCase(). -/
def toLowerCase (s : String) : String := String.mk (s.data.map Char.toLower)

inductive BetsError
  | betAmountOutOfRange
  | predictionNotFound
  | betNotFound
  | betAlreadyProcessed
  | paymentVerificationFailed
  deriving DecidableEq

structure PredictionSnapshot where
  prediction : String
  confidence : ℚ
  price_target_24h : Option ℚ
  current_price : ℚ
  token_symbol : Option String
  deriving DecidableEq

structure BetRecord where
  id : String
  user_wallet_address : String
  wallet_type : String
  prediction_id : Option String
  token_address : String
  token_symbol : Option String
  bet_direction : String
  bet_amount : ℚ
  bet_currency : String
  ai_prediction : String
  ai_confidence : ℚ
  ai_price_target_24h : Option ℚ
  entry_price : ℚ
  odds : ℚ
  potential_payout : ℚ
  payment_status : String
  payment_network : String
  payment_tx_hash : Option String
  payment_nonce : Option String
  bet_status : String
  settlement_price : Option ℚ
  payout_amount : Option ℚ
  expires_at : Int
  deriving DecidableEq

def MIN_BET : ℚ := 0.1

def MAX_BET : ℚ := 100

def calculateOdds (confidence : ℚ) (betDirection : String)
    (aiPrediction : String) : ℚ :=
  let odds : ℚ :=
    if betDirection = aiPrediction then
      1.5 + (100 - confidence) / 100 * 0.8
    else
      1.8 + confidence / 100 * 1.2
  roundTo2 odds

/-- prepareBet validates the stake, loads the prediction snapshot, computes
odds and potential payout, and persists the bet row with payment_status
pending and bet_status active. The payment-required descriptor assembled
afterwards is not part of the persisted row and is not modelled here. -/
def prepareBet (now : Int) (newBetId paymentNonce : String)
    (getPrediction : String → Option PredictionSnapshot)
    (walletAddress walletType predictionId tokenAddress betDirection : String)
    (amount : ℚ) (network : String) (store : List BetRecord) :
    Except BetsError (BetRecord × List BetRecord) :=
  if amount < MIN_BET ∨ amount > MAX_BET then
    Except.error BetsError.betAmountOutOfRange
  else
    match getPrediction predictionId with
    | none => Except.error BetsError.predictionNotFound
    | some prediction =>
        let odds := calculateOdds prediction.confidence betDirection prediction.prediction
        let potentialPayout := amount * odds
        let expiresAt := now + 24 * 60 * 60 * 1000
        let record : BetRecord :=
          { id := newBetId, user_wallet_address := toLowerCase walletAddress,
            wallet_type := walletType, prediction_id := some predictionId,
            token_address := tokenAddress, token_symbol := prediction.token_symbol,
            bet_direction := betDirection, bet_amount := amount,
            bet_currency := "USDC", ai_prediction := prediction.prediction,
            ai_confidence := prediction.confidence,
            ai_price_target_24h := prediction.price_target_24h,
            entry_price := prediction.current_price, odds := odds,
            potential_payout := potentialPayout, payment_status := "pending",
            payment_network := network, payment_tx_hash := none,
            payment_nonce := some paymentNonce, bet_status := "active",
            settlement_price := none, payout_amount := none,
            expires_at := expiresAt }
        Except.ok (record, store ++ [record])

/-! ## C6 -/

theorem roundTo2_bounds (q : ℚ) (lo hi : ℤ)
    (hlo : (lo : ℚ) / 100 ≤ q) (hhi : q ≤ (hi : ℚ) / 100) :
    (lo : ℚ) / 100 ≤ roundTo2 q ∧ roundTo2 q ≤ (hi : ℚ) / 100 := by
  have hql : (lo : ℚ) ≤ q * 100 := by
    have := (div_le_iff₀ (by norm_num : (0 : ℚ) < 100)).mp hlo
    linarith
  have hqh : q * 100 ≤ (hi : ℚ) := by
    have := (le_div_iff₀ (by norm_num : (0 : ℚ) < 100)).mp hhi
    linarith
  have h1 : lo ≤ jsRound (q * 100) := by
    rw [jsRound_eq_floor]
    exact Int.le_floor.mpr (by linarith)
  have h2 : jsRound (q * 100) ≤ hi := by
    rw [jsRound_eq_floor]
    have hlt : ⌊q * 100 + 1 / 2⌋ < hi + 1 := Int.floor_lt.mpr (by push_cast; linarith)
    omega
  constructor
  · rw [roundTo2]
    exact (div_le_div_iff_of_pos_right (by norm_num : (0 : ℚ) < 100)).mpr
      (by exact_mod_cast h1)
  · rw [roundTo2]
    exact (div_le_div_iff_of_pos_right (by norm_num : (0 : ℚ) < 100)).mpr
      (by exact_mod_cast h2)

/-- C6: with AI confidence in the range 0 to 100, betting with the AI
prediction yields odds equal to the rounded 1.5 + (100 - confidence)/100*0.8
and lying in the interval 1.5 to 2.3; betting against it yields the rounded
1.8 + confidence/100*1.2 lying in 1.8 to 3.0; the odds are an integer number
of hundredths, and a prepared bet's potential payout is amount times odds. -/
theorem C6_odds_formula_and_bounds (c : ℚ) (d a : String)
    (h0 : 0 ≤ c) (h100 : c ≤ 100) :
    (d = a → calculateOdds c d a = roundTo2 (1.5 + (100 - c) / 100 * 0.8)
        ∧ 1.5 ≤ calculateOdds c d a ∧ calculateOdds c d a ≤ 2.3)
      ∧ (d ≠ a → calculateOdds c d a = roundTo2 (1.8 + c / 100 * 1.2)
        ∧ 1.8 ≤ calculateOdds c d a ∧ calculateOdds c d a ≤ 3)
      ∧ (∃ n : ℤ, calculateOdds c d a = (n : ℚ) / 100)
      ∧ ∀ (now : Int) (betId nonce wa wt pid ta net : String)
          (getPred : String → Option PredictionSnapshot) (ps : PredictionSnapshot)
          (amount : ℚ) (store : List BetRecord) (rec : BetRecord)
          (store2 : List BetRecord),
          getPred pid = some ps →
          prepareBet now betId nonce getPred wa wt pid ta d amount net store
            = Except.ok (rec, store2) →
          rec.odds = calculateOdds ps.confidence d ps.prediction
            ∧ rec.potential_payout = amount * rec.odds := by
  refine ⟨?_, ?_, ?_, ?_⟩
  · intro hda
    have heq : calculateOdds c d a = roundTo2 (1.5 + (100 - c) / 100 * 0.8) := by
      simp [calculateOdds, hda]
    have hb := roundTo2_bounds (1.5 + (100 - c) / 100 * 0.8) 150 230
      (by push_cast; linarith) (by push_cast; linarith)
    refine ⟨heq, ?_, ?_⟩
    · rw [heq]
      calc (1.5 : ℚ) = ((150 : ℤ) : ℚ) / 100 := by norm_num
        _ ≤ roundTo2 (1.5 + (100 - c) / 100 * 0.8) := hb.1
    · rw [heq]
      calc roundTo2 (1.5 + (100 - c) / 100 * 0.8) ≤ ((230 : ℤ) : ℚ) / 100 := hb.2
        _ = 2.3 := by norm_num
  · intro hda
    have heq : calculateOdds c d a = roundTo2 (1.8 + c / 100 * 1.2) := by
      simp [calculateOdds, hda]
    have hb := roundTo2_bounds (1.8 + c / 100 * 1.2) 180 300
      (by push_cast; linarith) (by push_cast; linarith)
    refine ⟨heq, ?_, ?_⟩
    · rw [heq]
      calc (1.8 : ℚ) = ((180 : ℤ) : ℚ) / 100 := by norm_num
        _ ≤ roundTo2 (1.8 + c / 100 * 1.2) := hb.1
    · rw [heq]
      calc roundTo2 (1.8 + c / 100 * 1.2) ≤ ((300 : ℤ) : ℚ) / 100 := hb.2
        _ = 3 := by norm_num
  · exact ⟨jsRound ((if d = a then 1.5 + (100 - c) / 100 * 0.8
      else 1.8 + c / 100 * 1.2) * 100), rfl⟩
  · intro now betId nonce wa wt pid ta net getPred ps amount store rec store2 hgp hprep
    unfold prepareBet at hprep
    split_ifs at hprep
    rw [hgp] at hprep
    injection hprep with hpair
    injection hpair with h1 h2
    subst h1
    exact ⟨rfl, rfl⟩

def samplePrediction : PredictionSnapshot :=
  { prediction := "bullish", confidence := 80, price_target_24h := none,
    current_price := 1, token_symbol := some "DOGE" }

def getPredictionSample : String → Option PredictionSnapshot :=
  fun _ => some samplePrediction

def preparedBetSample : BetRecord :=
  { id := "bet-1", user_wallet_address := "0xabc", wallet_type := "evm",
    prediction_id := some "pred-1", token_address := "0xToken",
    token_symbol := some "DOGE", bet_direction := "bullish", bet_amount := 10,
    bet_currency := "USDC", ai_prediction := "bullish", ai_confidence := 80,
    ai_price_target_24h := none, entry_price := 1,
    odds := calculateOdds 80 "bullish" "bullish",
    potential_payout := 10 * calculateOdds 80 "bullish" "bullish",
    payment_status := "pending", payment_network := "base",
    payment_tx_hash := none, payment_nonce := some "nonce-1",
    bet_status := "active", settlement_price := none, payout_amount := none,
    expires_at := 86400000 }

theorem C6_witness :
    (0 : ℚ) ≤ 80 ∧ (80 : ℚ) ≤ 100
      ∧ calculateOdds 80 "bullish" "bullish" = roundTo2 (1.5 + (100 - 80) / 100 * 0.8)
      ∧ 1.5 ≤ calculateOdds 80 "bullish" "bullish"
      ∧ calculateOdds 80 "bullish" "bullish" ≤ 2.3
      ∧ calculateOdds 80 "bearish" "bullish" = roundTo2 (1.8 + (80 : ℚ) / 100 * 1.2)
      ∧ 1.8 ≤ calculateOdds 80 "bearish" "bullish"
      ∧ calculateOdds 80 "bearish" "bullish" ≤ 3
      ∧ preparedBetSample.odds = calculateOdds 80 "bullish" "bullish"
      ∧ preparedBetSample.potential_payout = 10 * preparedBetSample.odds := by
  have h1 := C6_odds_formula_and_bounds 80 "bullish" "bullish" (by norm_num) (by norm_num)
  have h2 := C6_odds_formula_and_bounds 80 "bearish" "bullish" (by norm_num) (by norm_num)
  have ha := h1.1 rfl
  have hb := h2.2.1 (by decide)
  have hprep : prepareBet 0 "bet-1" "nonce-1" getPredictionSample "0xAbC" "evm"
      "pred-1" "0xToken" "bullish" 10 "base" []
      = Except.ok (preparedBetSample, [preparedBetSample]) := by
    unfold prepareBet
    rw [if_neg (by norm_num [MIN_BET, MAX_BET])]
    rfl
  have hp := h1.2.2.2 0 "bet-1" "nonce-1" "0xAbC" "evm" "pred-1" "0xToken" "base"
    getPredictionSample samplePrediction 10 [] preparedBetSample [preparedBetSample]
    rfl hprep
  exact ⟨by norm_num, by norm_num, ha.1, ha.2.1, ha.2.2, hb.1, hb.2.1, hb.2.2,
    hp.1, hp.2⟩

/-! ## C8 -/

/-- Modelled from the spec: the result shape of the payment verifier used by
confirmBet (PaymentsService.verifyPayment for x402 payments), whose
implementation is not among the repository sources here; per the spec it is
a simplified stand-in returning a validity flag and an optional transaction
hash. confirmBet below takes the verifier as a parameter of this shape. -/
structure PaymentVerification where
  isValid : Bool
  txHash : Option String
  deriving DecidableEq

structure ConfirmBetResult where
  id : String
  status : String
  paymentStatus : String
  txHash : Option String
  potentialPayout : ℚ
  expiresAt : Int
  deriving DecidableEq

/-- verification.txHash or null: the empty string is falsy in JavaScript. -/
def normalizeTxHash : Option String → Option String
  | some h => if h = "" then none else some h
  | none => none

def setBetFailed (store : List BetRecord) (betId : String) : List BetRecord :=
  store.map (fun b =>
    if b.id == betId then { b with payment_status := "failed" } else b)

def setBetConfirmed (store : List BetRecord) (betId : String)
    (txh : Option String) : List BetRecord :=
  store.map (fun b =>
    if b.id == betId then
      { b with payment_status := "confirmed", payment_tx_hash := txh }
    else b)

def confirmBet
    (verifyPayment : String → Option String → ℚ → String → PaymentVerification)
    (store : List BetRecord) (betId walletAddress paymentSignature : String) :
    Except BetsError ConfirmBetResult × List BetRecord :=
  match store.find? (fun b =>
      b.id == betId && b.user_wallet_address == toLowerCase walletAddress) with
  | none => (Except.error BetsError.betNotFound, store)
  | some bet =>
      if bet.payment_status ≠ "pending" then
        (Except.error BetsError.betAlreadyProcessed, store)
      else
        let verification := verifyPayment paymentSignature bet.payment_nonce
          bet.bet_amount bet.payment_network
        if !verification.isValid then
          (Except.error BetsError.paymentVerificationFailed,
            setBetFailed store betId)
        else
          let store2 := setBetConfirmed store betId (normalizeTxHash verification.txHash)
          match store2.find? (fun b => b.id == betId) with
          | none => (Except.error BetsError.betNotFound, store2)
          | some ub =>
              (Except.ok
                { id := ub.id, status := ub.bet_status,
                  paymentStatus := ub.payment_status, txHash := ub.payment_tx_hash,
                  potentialPayout := ub.potential_payout, expiresAt := ub.expires_at },
                store2)

theorem find?_map_congr2 {α : Type} (p : α → Bool) (g f : α → α)
    (hg : ∀ x, p (g x) = p x) (hf : ∀ x, p x = true → g x = f x) :
    ∀ l : List α, (l.map g).find? p = (l.find? p).map f := by
  intro l
  induction l with
  | nil => rfl
  | cons x t ih =>
      simp only [List.map_cons]
      cases hx : p x with
      | true =>
          rw [List.find?_cons_of_pos _ (by rw [hg, hx]),
            List.find?_cons_of_pos _ hx, hf x hx]
          rfl
      | false =>
          rw [List.find?_cons_of_neg _ (by simp [hg, hx]),
            List.find?_cons_of_neg _ (by simp [hx])]
          exact ih

theorem setBetConfirmed_find? (store : List BetRecord) (betId : String)
    (txh : Option String) (p : BetRecord → Bool)
    (hp : ∀ x : BetRecord, p x = true → (x.id == betId) = true)
    (hinv : ∀ x : BetRecord,
      p { x with payment_status := "confirmed", payment_tx_hash := txh } = p x) :
    (setBetConfirmed store betId txh).find? p
      = (store.find? p).map
          (fun b => { b with payment_status := "confirmed", payment_tx_hash := txh }) := by
  apply find?_map_congr2
  · intro x
    cases hx : x.id == betId
    · simp [hx]
    · simp [hx, hinv x]
  · intro x hpx
    simp [hp x hpx]

theorem setBetFailed_find? (store : List BetRecord) (betId : String)
    (p : BetRecord → Bool)
    (hp : ∀ x : BetRecord, p x = true → (x.id == betId) = true)
    (hinv : ∀ x : BetRecord, p { x with payment_status := "failed" } = p x) :
    (setBetFailed store betId).find? p
      = (store.find? p).map (fun b => { b with payment_status := "failed" }) := by
  apply find?_map_congr2
  · intro x
    cases hx : x.id == betId
    · simp [hx]
    · simp [hx, hinv x]
  · intro x hpx
    simp [hp x hpx]

theorem setBetFailed_txHashes (store : List BetRecord) (betId : String) :
    (setBetFailed store betId).map (fun b => b.payment_tx_hash)
      = store.map (fun b => b.payment_tx_hash) := by
  unfold setBetFailed
  rw [List.map_map]
  apply List.map_congr_left
  intro x _
  cases hx : x.id == betId <;> simp [hx, Function.comp]

/-- C8: confirmBet on a bet whose payment_status is not pending fails with
the already-processed Conflict and leaves the store, and hence the stored
payment tx hash, unchanged; on a pending bet it performs exactly one of the
two transitions, pending to failed on rejected verification (tx hashes
untouched) or pending to confirmed recording the verifier's returned hash,
and after either transition a repeated confirmBet fails with the same
Conflict without further mutation. -/
theorem C8_confirmBet_state_machine
    (verifyPayment : String → Option String → ℚ → String → PaymentVerification)
    (store : List BetRecord) (betId walletAddress paymentSignature : String)
    (bet : BetRecord)
    (hfind : store.find? (fun b =>
        b.id == betId && b.user_wallet_address == toLowerCase walletAddress) = some bet)
    (hfindId : store.find? (fun b => b.id == betId) = some bet) :
    (bet.payment_status ≠ "pending" →
        confirmBet verifyPayment store betId walletAddress paymentSignature
          = (Except.error BetsError.betAlreadyProcessed, store))
      ∧ (bet.payment_status = "pending" →
          (verifyPayment paymentSignature bet.payment_nonce bet.bet_amount
              bet.payment_network).isValid = false →
          confirmBet verifyPayment store betId walletAddress paymentSignature
            = (Except.error BetsError.paymentVerificationFailed,
                setBetFailed store betId)
            ∧ (setBetFailed store betId).map (fun b => b.payment_tx_hash)
                = store.map (fun b => b.payment_tx_hash))
      ∧ (bet.payment_status = "pending" →
          (verifyPayment paymentSignature bet.payment_nonce bet.bet_amount
              bet.payment_network).isValid = true →
          confirmBet verifyPayment store betId walletAddress paymentSignature
            = (Except.ok
                { id := bet.id, status := bet.bet_status,
                  paymentStatus := "confirmed",
                  txHash := normalizeTxHash (verifyPayment paymentSignature
                    bet.payment_nonce bet.bet_amount bet.payment_network).txHash,
                  potentialPayout := bet.potential_payout,
                  expiresAt := bet.expires_at },
                setBetConfirmed store betId (normalizeTxHash
                  (verifyPayment paymentSignature bet.payment_nonce
                    bet.bet_amount bet.payment_network).txHash)))
      ∧ (∀ txh sig2,
          confirmBet verifyPayment (setBetConfirmed store betId txh)
              betId walletAddress sig2
            = (Except.error BetsError.betAlreadyProcessed,
                setBetConfirmed store betId txh))
      ∧ (∀ sig2,
          confirmBet verifyPayment (setBetFailed store betId)
              betId walletAddress sig2
            = (Except.error BetsError.betAlreadyProcessed,
                setBetFailed store betId)) := by
  have hpbet := List.find?_some hfind
  have hpid : (bet.id == betId) = true := by
    rw [Bool.and_eq_true] at hpbet
    exact hpbet.1
  refine ⟨?_, ?_, ?_, ?_, ?_⟩
  · intro hstat
    simp [confirmBet, hfind, hstat]
  · intro hpend hV
    refine ⟨?_, setBetFailed_txHashes store betId⟩
    simp [confirmBet, hfind, hpend, hV]
  · intro hpend hV
    have hfd := setBetConfirmed_find? store betId
      (normalizeTxHash (verifyPayment paymentSignature bet.payment_nonce
        bet.bet_amount bet.payment_network).txHash)
      (fun b => b.id == betId) (fun x hx => hx) (fun x => rfl)
    rw [hfindId] at hfd
    simp only [Option.map_some'] at hfd
    simp [confirmBet, hfind, hpend, hV, hfd]
  · intro txh sig2
    have hfd := setBetConfirmed_find? store betId txh
      (fun b => b.id == betId && b.user_wallet_address == toLowerCase walletAddress)
      (fun x hx => by rw [Bool.and_eq_true] at hx; exact hx.1)
      (fun x => rfl)
    rw [hfind] at hfd
    simp only [Option.map_some'] at hfd
    simp [confirmBet, hfd]
  · intro sig2
    have hfd := setBetFailed_find? store betId
      (fun b => b.id == betId && b.user_wallet_address == toLowerCase walletAddress)
      (fun x hx => by rw [Bool.and_eq_true] at hx; exact hx.1)
      (fun x => rfl)
    rw [hfind] at hfd
    simp only [Option.map_some'] at hfd
    simp [confirmBet, hfd]

def verifyPaymentSampleOk :
    String → Option String → ℚ → String → PaymentVerification :=
  fun _ _ _ _ => { isValid := true, txHash := some txHashA }

def confirmedBetSample : BetRecord :=
  { preparedBetSample with
      payment_status := "confirmed", payment_tx_hash := some txHashA }

theorem C8_witness :
    ([confirmedBetSample].find? (fun b =>
        b.id == "bet-1" && b.user_wallet_address == toLowerCase "0xAbC")
        = some confirmedBetSample)
      ∧ confirmedBetSample.payment_status ≠ "pending"
      ∧ confirmBet verifyPaymentSampleOk [confirmedBetSample] "bet-1" "0xAbC" "sig"
          = (Except.error BetsError.betAlreadyProcessed, [confirmedBetSample])
      ∧ preparedBetSample.payment_status = "pending"
      ∧ confirmBet verifyPaymentSampleOk [preparedBetSample] "bet-1" "0xAbC" "sig"
          = (Except.ok
              { id := "bet-1", status := "active", paymentStatus := "confirmed",
                txHash := some txHashA,
                potentialPayout := 10 * calculateOdds 80 "bullish" "bullish",
                expiresAt := 86400000 },
              setBetConfirmed [preparedBetSample] "bet-1" (some txHashA))
      ∧ confirmBet verifyPaymentSampleOk
            (setBetConfirmed [preparedBetSample] "bet-1" (some txHashA))
            "bet-1" "0xAbC" "sig2"
          = (Except.error BetsError.betAlreadyProcessed,
              setBetConfirmed [preparedBetSample] "bet-1" (some txHashA)) := by
  have h1 := C8_confirmBet_state_machine verifyPaymentSampleOk [confirmedBetSample]
    "bet-1" "0xAbC" "sig" confirmedBetSample rfl rfl
  have h2 := C8_confirmBet_state_machine verifyPaymentSampleOk [preparedBetSample]
    "bet-1" "0xAbC" "sig" preparedBetSample rfl rfl
  refine ⟨rfl, by decide, h1.1 (by decide), rfl, ?_, ?_⟩
  · exact h2.2.2.1 rfl rfl
  · exact h2.2.2.2.1 (some txHashA) "sig2"

/-! ## Wallet session manager (WalletService, WalletAuthGuard) -/

inductive WalletType
  | evm
  | solana
  deriving DecidableEq

structure WalletSessionRecord where
  id : String
  wallet_address : String
  wallet_type : WalletType
  challenge_message : String
  is_verified : Bool
  signature : Option String
  session_token : Option String
  nonce : String
  verified_at : Option Int
  expires_at : Int
  deriving DecidableEq

inductive WalletError
  | sessionNotFound
  | sessionExpired
  | sessionAlreadyUsed
  | invalidSignature
  | invalidToken
  deriving DecidableEq

structure ConnectResult where
  sessionId : String
  challenge : String
  expiresAt : Int
  deriving DecidableEq

structure VerifyResult where
  sessionToken : String
  walletAddress : String
  walletType : WalletType
  expiresAt : Int
  deriving DecidableEq

structure JwtPayload where
  walletAddress : String
  walletType : WalletType
  sessionId : String
  deriving DecidableEq

structure SessionInfo where
  walletAddress : String
  walletType : WalletType
  isVerified : Bool
  deriving DecidableEq

def generateChallenge (walletAddress nonce timestamp : String) : String :=
  "Crux Trade Authentication\n\nWallet: " ++ walletAddress
    ++ "\nNonce: " ++ nonce ++ "\nTimestamp: " ++ timestamp
    ++ "\n\nSign this message to authenticate with Crux Trade."
    ++ "\nThis request will not trigger any blockchain transaction."

/-- connect stores the lowercased address while the challenge text embeds the
caller-supplied address verbatim; the new row id and nonce are generated by
the store and by uuid, passed here as parameters. -/
def connect (newSessionId nonce timestamp : String) (now : Int)
    (walletAddress : String) (walletType : WalletType)
    (store : List WalletSessionRecord) :
    ConnectResult × List WalletSessionRecord :=
  let expiresAt := now + 5 * 60 * 1000
  let challenge := generateChallenge walletAddress nonce timestamp
  let record : WalletSessionRecord :=
    { id := newSessionId, wallet_address := toLowerCase walletAddress,
      wallet_type := walletType, challenge_message := challenge,
      is_verified := false, signature := none, session_token := none,
      nonce := nonce, verified_at := none, expires_at := expiresAt }
  ({ sessionId := newSessionId, challenge := challenge, expiresAt := expiresAt },
    store ++ [record])

/-- Signature verification dispatch: evm uses message recovery, solana a
detached ed25519 check; both cryptographic primitives are external
capabilities, passed here as boolean-valued functions of address, message
and signature. -/
def verifySignatureDispatch (evmCheck solCheck : String → String → String → Bool)
    (walletType : WalletType) (walletAddress message signature : String) : Bool :=
  match walletType with
  | WalletType.evm => evmCheck walletAddress message signature
  | WalletType.solana => solCheck walletAddress message signature

def verify (evmCheck solCheck : String → String → String → Bool)
    (jwtSign : JwtPayload → String) (now : Int)
    (store : List WalletSessionRecord) (sessionId signature : String) :
    Except WalletError VerifyResult × List WalletSessionRecord :=
  match store.find? (fun s => s.id == sessionId) with
  | none => (Except.error WalletError.sessionNotFound, store)
  | some session =>
      if session.expires_at < now then
        (Except.error WalletError.sessionExpired, store)
      else if session.is_verified then
        (Except.error WalletError.sessionAlreadyUsed, store)
      else if !(verifySignatureDispatch evmCheck solCheck session.wallet_type
          session.wallet_address session.challenge_message signature) then
        (Except.error WalletError.invalidSignature, store)
      else
        let sessionToken := jwtSign
          { walletAddress := session.wallet_address,
            walletType := session.wallet_type, sessionId := sessionId }
        let newExpiry := now + 24 * 60 * 60 * 1000
        (Except.ok
          { sessionToken := sessionToken, walletAddress := session.wallet_address,
            walletType := session.wallet_type, expiresAt := newExpiry },
          store.map (fun s =>
            if s.id == sessionId then
              { s with
                  is_verified := true, signature := some signature,
                  session_token := some sessionToken, verified_at := some now,
                  expires_at := newExpiry }
            else s))

def getSession (jwtVerify : String → Option JwtPayload)
    (store : List WalletSessionRecord) (token : String) :
    Except WalletError SessionInfo :=
  match jwtVerify token with
  | some payload =>
      Except.ok
        { walletAddress := payload.walletAddress,
          walletType := payload.walletType, isVerified := true }
  | none => Except.error WalletError.invalidToken

def verifyToken (jwtVerify : String → Option JwtPayload)
    (store : List WalletSessionRecord) (token : String) :
    Except WalletError (String × WalletType) :=
  match jwtVerify token with
  | some payload => Except.ok (payload.walletAddress, payload.walletType)
  | none => Except.error WalletError.invalidToken

/-! ## C7 -/

def evmCheckTrue : String → String → String → Bool := fun _ _ _ => true

def solCheckTrue : String → String → String → Bool := fun _ _ _ => true

def jwtSignSample : JwtPayload → String := fun _ => "session-token-1"

def freshSessionSample : WalletSessionRecord :=
  { id := "sess-1", wallet_address := "0xabc", wallet_type := WalletType.evm,
    challenge_message := "challenge", is_verified := false, signature := none,
    session_token := none, nonce := "nonce-1", verified_at := none,
    expires_at := 100 }

def verifiedStoreSample : List WalletSessionRecord :=
  (verify evmCheckTrue solCheckTrue jwtSignSample 0 [freshSessionSample]
    "sess-1" "sig1").2

/-- C7 counterexample: after a successful verify extends the session to 24
hours, a later verify call past that extended expiry fails with
SessionExpired, not AlreadyUsed, because the expiry check runs before the
already-used check. -/
theorem C7_counterexample :
    (verify evmCheckTrue solCheckTrue jwtSignSample 0 [freshSessionSample]
        "sess-1" "sig1").1
      = Except.ok
          { sessionToken := "session-token-1", walletAddress := "0xabc",
            walletType := WalletType.evm, expiresAt := 86400000 }
      ∧ (verify evmCheckTrue solCheckTrue jwtSignSample 86400001
          verifiedStoreSample "sess-1" "sig2").1
          = Except.error WalletError.sessionExpired
      ∧ (verify evmCheckTrue solCheckTrue jwtSignSample 86400001
          verifiedStoreSample "sess-1" "sig2").1
          ≠ Except.error WalletError.sessionAlreadyUsed := by
  refine ⟨rfl, rfl, ?_⟩
  intro hcontra
  have h2 : (verify evmCheckTrue solCheckTrue jwtSignSample 86400001
      verifiedStoreSample "sess-1" "sig2").1
      = Except.error WalletError.sessionExpired := rfl
  rw [h2] at hcontra
  exact WalletError.noConfusion (Except.error.inj hcontra)

/-- The store update performed by a successful verify of the given session. -/
def applyVerifyUpdate (jwtSign : JwtPayload → String) (now1 : Int)
    (sessionId sig1 : String) (session : WalletSessionRecord) :
    WalletSessionRecord → WalletSessionRecord :=
  fun s =>
    if s.id == sessionId then
      { s with
          is_verified := true, signature := some sig1,
          session_token := some (jwtSign
            { walletAddress := session.wallet_address,
              walletType := session.wallet_type, sessionId := sessionId }),
          verified_at := some now1, expires_at := now1 + 24 * 60 * 60 * 1000 }
    else s

theorem verify_after_success_aux
    (evmCheck solCheck : String → String → String → Bool)
    (jwtSign : JwtPayload → String) (now1 : Int)
    (store : List WalletSessionRecord) (sessionId sig1 : String)
    (session : WalletSessionRecord)
    (hfind : store.find? (fun s => s.id == sessionId) = some session) :
    (∃ q1, (store.map (applyVerifyUpdate jwtSign now1 sessionId sig1 session)).find?
          (fun s => s.id == sessionId) = some q1
        ∧ q1.is_verified = true ∧ q1.expires_at = now1 + 24 * 60 * 60 * 1000)
      ∧ ∀ now2 sig2,
          verify evmCheck solCheck jwtSign now2
              (store.map (applyVerifyUpdate jwtSign now1 sessionId sig1 session))
              sessionId sig2
            = (Except.error (if now1 + 24 * 60 * 60 * 1000 < now2
                then WalletError.sessionExpired
                else WalletError.sessionAlreadyUsed),
              store.map (applyVerifyUpdate jwtSign now1 sessionId sig1 session)) := by
  have hfd := find?_map_congr2 (fun s => s.id == sessionId)
    (applyVerifyUpdate jwtSign now1 sessionId sig1 session)
    (fun s =>
      { s with
          is_verified := true, signature := some sig1,
          session_token := some (jwtSign
            { walletAddress := session.wallet_address,
              walletType := session.wallet_type, sessionId := sessionId }),
          verified_at := some now1, expires_at := now1 + 24 * 60 * 60 * 1000 })
    (by intro x; cases hx : x.id == sessionId <;> simp [applyVerifyUpdate, hx])
    (by intro x hx; simp [applyVerifyUpdate, hx]) store
  rw [hfind] at hfd
  simp only [Option.map_some'] at hfd
  constructor
  · exact ⟨_, hfd, rfl, rfl⟩
  · intro now2 sig2
    simp [verify, hfd]
    split_ifs <;> rfl

/-- C7 (amended): once a session is successfully verified, every later verify
call on the same sessionId with any signature fails and leaves the store
unchanged — with AlreadyUsed while the extended 24-hour expiry has not yet
passed, and with SessionExpired after it; a second verify never succeeds and
never mints a second token. -/
theorem C7_verify_single_use (evmCheck solCheck : String → String → String → Bool)
    (jwtSign : JwtPayload → String) (now1 : Int)
    (store : List WalletSessionRecord) (sessionId sig1 : String)
    (r : VerifyResult) (s1 : List WalletSessionRecord)
    (hsucc : verify evmCheck solCheck jwtSign now1 store sessionId sig1
      = (Except.ok r, s1)) :
    (∃ q1, s1.find? (fun s => s.id == sessionId) = some q1
        ∧ q1.is_verified = true ∧ q1.expires_at = now1 + 24 * 60 * 60 * 1000)
      ∧ ∀ now2 sig2,
          verify evmCheck solCheck jwtSign now2 s1 sessionId sig2
            = (Except.error (if now1 + 24 * 60 * 60 * 1000 < now2
                then WalletError.sessionExpired
                else WalletError.sessionAlreadyUsed), s1) := by
  unfold verify at hsucc
  cases hfind : store.find? (fun s => s.id == sessionId) with
  | none =>
      rw [hfind] at hsucc
      exact absurd hsucc (by simp)
  | some session =>
      rw [hfind] at hsucc
      dsimp only at hsucc
      split_ifs at hsucc with h1 h2 h3
      · exact absurd hsucc (by simp)
      · exact absurd hsucc (by simp)
      · exact absurd hsucc (by simp)
      · injection hsucc with hr hs
        subst hs
        exact verify_after_success_aux evmCheck solCheck jwtSign now1 store
          sessionId sig1 session hfind

theorem C7_witness :
    verify evmCheckTrue solCheckTrue jwtSignSample 0 [freshSessionSample]
        "sess-1" "sig1"
      = (Except.ok
          { sessionToken := "session-token-1", walletAddress := "0xabc",
            walletType := WalletType.evm, expiresAt := 86400000 },
          verifiedStoreSample)
      ∧ verify evmCheckTrue solCheckTrue jwtSignSample 50 verifiedStoreSample
          "sess-1" "sig2"
          = (Except.error WalletError.sessionAlreadyUsed, verifiedStoreSample)
      ∧ verify evmCheckTrue solCheckTrue jwtSignSample 86400001
          verifiedStoreSample "sess-1" "sig2"
          = (Except.error WalletError.sessionExpired, verifiedStoreSample) := by
  have h := C7_verify_single_use evmCheckTrue solCheckTrue jwtSignSample 0
    [freshSessionSample] "sess-1" "sig1"
    { sessionToken := "session-token-1", walletAddress := "0xabc",
      walletType := WalletType.evm, expiresAt := 86400000 }
    verifiedStoreSample rfl
  refine ⟨rfl, ?_, ?_⟩
  · have h2 := h.2 50 "sig2"
    simpa using h2
  · have h2 := h.2 86400001 "sig2"
    simpa using h2

/-! ## C9 -/

theorem find?_append_of_none {α : Type} (p : α → Bool) (l1 l2 : List α)
    (h : l1.find? p = none) : (l1 ++ l2).find? p = l2.find? p := by
  induction l1 with
  | nil => rfl
  | cons x t ih =>
      cases hx : p x with
      | true =>
          rw [List.find?_cons_of_pos _ hx] at h
          exact absurd h (by simp)
      | false =>
          rw [List.find?_cons_of_neg _ (by simp [hx])] at h
          simp only [List.cons_append]
          rw [List.find?_cons_of_neg _ (by simp [hx])]
          exact ih h

/-- The session row inserted by connect. -/
def connectSessionRecord (newSessionId nonce timestamp : String) (now : Int)
    (walletAddress : String) (walletType : WalletType) : WalletSessionRecord :=
  { id := newSessionId, wallet_address := toLowerCase walletAddress,
    wallet_type := walletType,
    challenge_message := generateChallenge walletAddress nonce timestamp,
    is_verified := false, signature := none, session_token := none,
    nonce := nonce, verified_at := none, expires_at := now + 5 * 60 * 1000 }

theorem connect_eq (newSessionId nonce timestamp : String) (now : Int)
    (walletAddress : String) (walletType : WalletType)
    (store : List WalletSessionRecord) :
    connect newSessionId nonce timestamp now walletAddress walletType store
      = ({ sessionId := newSessionId,
            challenge := generateChallenge walletAddress nonce timestamp,
            expiresAt := now + 5 * 60 * 1000 },
          store ++ [connectSessionRecord newSessionId nonce timestamp now
            walletAddress walletType]) := rfl

/-- C9: connect persists the wallet address lowercased while the challenge
text embeds the caller-supplied original-case address, and verify checks the
signature against the stored lowercased address; hence for a solana session
whose base-58 address contains an uppercase character — so that the
lowercased string is not the signer's public key and the detached-signature
check rejects every signature under it — verify fails with InvalidSignature
for every signature. -/
theorem C9_solana_lowercased_address (evmCheck solCheck : String → String → String → Bool)
    (jwtSign : JwtPayload → String) (newSessionId nonce timestamp : String)
    (now : Int) (walletAddress : String) (store : List WalletSessionRecord)
    (hfresh : store.find? (fun s => s.id == newSessionId) = none)
    (hupper : toLowerCase walletAddress ≠ walletAddress)
    (hforge : ∀ sig, solCheck (toLowerCase walletAddress)
        (generateChallenge walletAddress nonce timestamp) sig = false) :
    ((connect newSessionId nonce timestamp now walletAddress
          WalletType.solana store).1.challenge
        = generateChallenge walletAddress nonce timestamp)
      ∧ ((connect newSessionId nonce timestamp now walletAddress
            WalletType.solana store).2.find? (fun s => s.id == newSessionId)
          = some (connectSessionRecord newSessionId nonce timestamp now
              walletAddress WalletType.solana))
      ∧ (connectSessionRecord newSessionId nonce timestamp now walletAddress
          WalletType.solana).wallet_address = toLowerCase walletAddress
      ∧ (connectSessionRecord newSessionId nonce timestamp now walletAddress
          WalletType.solana).wallet_address ≠ walletAddress
      ∧ ∀ now2 : Int, ¬(now + 5 * 60 * 1000 < now2) → ∀ sig,
          verify evmCheck solCheck jwtSign now2
              (connect newSessionId nonce timestamp now walletAddress
                WalletType.solana store).2 newSessionId sig
            = (Except.error WalletError.invalidSignature,
              (connect newSessionId nonce timestamp now walletAddress
                WalletType.solana store).2) := by
  have hfd : (connect newSessionId nonce timestamp now walletAddress
      WalletType.solana store).2.find? (fun s => s.id == newSessionId)
      = some (connectSessionRecord newSessionId nonce timestamp now
          walletAddress WalletType.solana) := by
    rw [connect_eq]
    rw [find?_append_of_none _ store _ hfresh]
    rw [List.find?_cons_of_pos _ (by simp [connectSessionRecord])]
  refine ⟨rfl, hfd, rfl, hupper, ?_⟩
  intro now2 hnow2 sig
  simp [verify, hfd, connectSessionRecord, verifySignatureDispatch, hforge sig]
  omega

def solCheckFalse : String → String → String → Bool := fun _ _ _ => false

theorem C9_witness :
    toLowerCase "A1" ≠ "A1"
      ∧ (connect "sess-9" "nonce-9" "ts-9" 0 "A1" WalletType.solana []).1.challenge
          = generateChallenge "A1" "nonce-9" "ts-9"
      ∧ (connect "sess-9" "nonce-9" "ts-9" 0 "A1" WalletType.solana []).2.find?
            (fun s => s.id == "sess-9")
          = some (connectSessionRecord "sess-9" "nonce-9" "ts-9" 0 "A1"
              WalletType.solana)
      ∧ (connectSessionRecord "sess-9" "nonce-9" "ts-9" 0 "A1"
          WalletType.solana).wallet_address = "a1"
      ∧ verify evmCheckTrue solCheckFalse jwtSignSample 0
            (connect "sess-9" "nonce-9" "ts-9" 0 "A1" WalletType.solana []).2
            "sess-9" "any-signature"
          = (Except.error WalletError.invalidSignature,
            (connect "sess-9" "nonce-9" "ts-9" 0 "A1" WalletType.solana []).2) := by
  have h := C9_solana_lowercased_address evmCheckTrue solCheckFalse jwtSignSample
    "sess-9" "nonce-9" "ts-9" 0 "A1" [] rfl (by decide) (fun _ => rfl)
  exact ⟨by decide, h.1, h.2.1, rfl, h.2.2.2.2 0 (by decide) "any-signature"⟩

/-! ## C10 -/

/-- C10: token introspection is purely cryptographic — getSession and
verifyToken never consult the persistent store: their result is the same for
any two store states; a token the JWT verifier accepts yields the embedded
address and wallet type with isVerified true regardless of any stored
session row, and a token it rejects fails with InvalidToken. -/
theorem C10_token_introspection_pure (jwtVerify : String → Option JwtPayload)
    (store1 store2 : List WalletSessionRecord) (token : String) :
    getSession jwtVerify store1 token = getSession jwtVerify store2 token
      ∧ verifyToken jwtVerify store1 token = verifyToken jwtVerify store2 token
      ∧ (∀ p, jwtVerify token = some p →
          getSession jwtVerify store1 token
              = Except.ok
                  { walletAddress := p.walletAddress,
                    walletType := p.walletType, isVerified := true }
            ∧ verifyToken jwtVerify store1 token
              = Except.ok (p.walletAddress, p.walletType))
      ∧ (jwtVerify token = none →
          getSession jwtVerify store1 token = Except.error WalletError.invalidToken
            ∧ verifyToken jwtVerify store1 token
              = Except.error WalletError.invalidToken) := by
  refine ⟨rfl, rfl, ?_, ?_⟩
  · intro p hp
    exact ⟨by simp [getSession, hp], by simp [verifyToken, hp]⟩
  · intro hn
    exact ⟨by simp [getSession, hn], by simp [verifyToken, hn]⟩

def jwtVerifySome : String → Option JwtPayload :=
  fun _ =>
    some
      { walletAddress := "0xabc", walletType := WalletType.evm,
        sessionId := "sess-1" }

def jwtVerifyNone : String → Option JwtPayload := fun _ => none

theorem C10_witness :
    getSession jwtVerifySome [freshSessionSample] "tok"
        = getSession jwtVerifySome [] "tok"
      ∧ verifyToken jwtVerifySome [freshSessionSample] "tok"
          = verifyToken jwtVerifySome [] "tok"
      ∧ getSession jwtVerifySome [freshSessionSample] "tok"
          = Except.ok
              { walletAddress := "0xabc", walletType := WalletType.evm,
                isVerified := true }
      ∧ verifyToken jwtVerifySome [freshSessionSample] "tok"
          = Except.ok ("0xabc", WalletType.evm)
      ∧ getSession jwtVerifyNone [freshSessionSample] "tok"
          = Except.error WalletError.invalidToken
      ∧ verifyToken jwtVerifyNone [freshSessionSample] "tok"
          = Except.error WalletError.invalidToken := by
  have h1 := C10_token_introspection_pure jwtVerifySome [freshSessionSample] [] "tok"
  have h2 := C10_token_introspection_pure jwtVerifyNone [freshSessionSample] [] "tok"
  have hs := h1.2.2.1
    { walletAddress := "0xabc", walletType := WalletType.evm,
      sessionId := "sess-1" } rfl
  have hn := h2.2.2.2 rfl
  exact ⟨h1.1, h1.2.1, hs.1, hs.2, hn.1, hn.2⟩

end CruxTrade
